import Mathlib

/-!
Verification development for the blog API system
(transactional post store + redis cache + elasticsearch index).

The Go sources are shallowly embedded below:
* PostgreSQL rows become Lean structures; the SQL statements of
  `post_repository.go` / `main.go` are embedded by their SQL semantics
  (the wire protocol of the stores is out of scope for the design).
* A Go string is modelled by Lean `String`; where the code manipulates the
  textual form of a tag array (`array_to_string(tags, ',')` followed by
  `strings.Split(s, ",")`), the produced text is modelled as its character
  sequence (`List Char`) so that the split/join behaviour is exact.
* Fallible calls (transaction steps, redis, elasticsearch transport) take an
  explicit failure oracle argument; goroutines launched by a handler are
  recorded as a list of spawned tasks in the handler's result.
-/

namespace Blog

/-- Row of the `posts` table (`id serial pk, title, content, tags text[], created_at`). -/
structure PostRow where
  id : Nat
  title : String
  content : String
  tags : List String
  createdAt : Nat
deriving DecidableEq

/-- Row of the `activity_logs` table (`id serial pk, action, post_id, logged_at`). -/
structure ActivityLog where
  id : Nat
  action : String
  postId : Nat
  loggedAt : Nat
deriving DecidableEq

/-- State of the relational store: both tables plus the serial counters. -/
structure DBState where
  posts : List PostRow
  logs : List ActivityLog
  nextPostId : Nat
  nextLogId : Nat
deriving DecidableEq

/-- `models.Related` - a related-post summary (id, title, tags). -/
structure Related where
  id : Nat
  title : String
  tags : List String
deriving DecidableEq

/-- `models.Post` - the API-level post value, including the transient
`related_posts` projection. -/
structure Post where
  id : Nat
  title : String
  content : String
  tags : List String
  createdAt : Nat
  relatedPosts : List Related
deriving DecidableEq

/-- `models.CreatePostRequest` (`title`, `content`, `tags`). -/
structure CreatePostRequest where
  title : String
  content : String
  tags : List String
deriving DecidableEq

/-- `models.UpdatePostRequest` (`title`, `content`, `tags`). -/
structure UpdatePostRequest where
  title : String
  content : String
  tags : List String
deriving DecidableEq

/-- Failure oracle for the create transaction: which step of
`CreatePostWithTransaction` (equally, the inlined transaction of
`main.go createPost`) fails, if any. -/
inductive TxFail where
  | atBegin
  | atInsertPost
  | atInsertLog
  | atCommit
  | ok
deriving DecidableEq

/-- `PostRepository.CreatePostWithTransaction` (post_repository.go 21-56) and the
identical inlined transaction of `createPost` (main.go 207-245): begin a
transaction, insert the post row (`RETURNING id, title, content, tags,
created_at`), insert one `new_post` activity-log row, commit.  Every failing
step returns with the deferred `tx.Rollback()` discarding the uncommitted
rows, so the store is left exactly as it was; only a successful commit
publishes both rows. -/
def createPostWithTransaction (db : DBState) (req : CreatePostRequest) (now : Nat)
    (fail : TxFail) : DBState × Option PostRow :=
  if fail = TxFail.atBegin then (db, none)
  else
    let row : PostRow :=
      { id := db.nextPostId, title := req.title, content := req.content
        tags := req.tags, createdAt := now }
    if fail = TxFail.atInsertPost then (db, none)
    else
      let logRow : ActivityLog :=
        { id := db.nextLogId, action := "new_post", postId := row.id, loggedAt := now }
      if fail = TxFail.atInsertLog then (db, none)
      else if fail = TxFail.atCommit then (db, none)
      else
        ({ posts := db.posts ++ [row], logs := db.logs ++ [logRow]
           nextPostId := db.nextPostId + 1, nextLogId := db.nextLogId + 1 },
         some row)

/-- C1: post creation is atomic with its audit record.  For every create
request and every possible failure point of the transaction, either the call
fails and the store is exactly the initial store (neither the post row nor any
activity-log row is persisted), or the call succeeds and the post row together
with exactly one `new_post` activity-log row for it are committed together. -/
theorem create_with_audit_atomic (db : DBState) (req : CreatePostRequest) (now : Nat)
    (fail : TxFail) :
    ((createPostWithTransaction db req now fail).2 = none ∧
      (createPostWithTransaction db req now fail).1 = db)
    ∨ (∃ row : PostRow, (createPostWithTransaction db req now fail).2 = some row ∧
        (createPostWithTransaction db req now fail).1.posts = db.posts ++ [row] ∧
        (createPostWithTransaction db req now fail).1.logs = db.logs ++
          [{ id := db.nextLogId, action := "new_post", postId := row.id, loggedAt := now }]) := by
  cases fail with
  | ok =>
      right
      exact ⟨_, rfl, rfl, rfl⟩
  | atBegin => left; exact ⟨rfl, rfl⟩
  | atInsertPost => left; exact ⟨rfl, rfl⟩
  | atInsertLog => left; exact ⟨rfl, rfl⟩
  | atCommit => left; exact ⟨rfl, rfl⟩

/-- Tag-array serialization performed by the read queries:
`array_to_string(tags, ',')` joins the stored tags with a comma.  The produced
text is modelled as its character sequence. -/
def joinTags (tags : List String) : List Char :=
  [','].intercalate (tags.map String.toList)

/-- Tag parsing performed by `GetPostByID` (post_repository.go 77-81) and by
`getPost` (main.go 300-304): the non-empty joined string is `strings.Split` on
`","`; an empty or NULL string yields the empty tag list. -/
def parseTags (s : List Char) : List String :=
  if s = [] then [] else (s.splitOn ',').map List.asString

/-- `PostRepository.GetPostByID` (post_repository.go 59-84) and the identical
inlined query of `getPost` (main.go 282-304): select the row by id, with the
tags column read back through `array_to_string(tags, ',')` and re-split on
commas.  The related-posts projection is never part of the stored row. -/
def getPostByID (db : DBState) (id : Nat) : Option Post :=
  (db.posts.find? (fun p => p.id = id)).map (fun row =>
    { id := row.id, title := row.title, content := row.content
      tags := parseTags (joinTags row.tags), createdAt := row.createdAt
      relatedPosts := [] })

theorem asString_toList (s : String) : (String.toList s).asString = s := rfl

/-- Joining with commas and re-splitting is the identity on tag lists whose
tags are non-empty and comma-free. -/
theorem parseTags_joinTags (tags : List String)
    (h : ∀ t ∈ tags, t.toList ≠ [] ∧ ',' ∉ t.toList) :
    parseTags (joinTags tags) = tags := by
  rcases htags : tags with _ | ⟨t0, rest⟩
  · rfl
  · rw [← htags]
    have hne : tags ≠ [] := by simp [htags]
    have hsplit : (joinTags tags).splitOn ',' = tags.map String.toList := by
      apply List.splitOn_intercalate
      · intro l hl
        rcases List.mem_map.mp hl with ⟨t, ht, rfl⟩
        exact (h t ht).2
      · exact fun hm => hne (List.map_eq_nil_iff.mp hm)
    have hjoin_ne : joinTags tags ≠ [] := by
      intro hempty
      have hmap : tags.map String.toList = [[]] := by
        rw [← hsplit, hempty]; rfl
      rcases List.map_eq_cons_iff.mp hmap with ⟨t, ts, htl, htnil, -⟩
      exact ((h t (by simp [htl])).1) htnil
    unfold parseTags
    rw [if_neg hjoin_ne, hsplit, List.map_map]
    have hid : (List.asString ∘ String.toList) = id := funext fun s => asString_toList s
    rw [hid, List.map_id]

/-- C2 counterexample: a tag containing a comma does not round-trip.  Creating
a post with tag list `["a,b"]` and fetching it by its assigned id returns the
tag sequence `["a", "b"]`, not the provided `["a,b"]`. -/
theorem tags_comma_roundtrip_cex :
    (getPostByID
        (createPostWithTransaction ⟨[], [], 1, 1⟩ ⟨"t", "c", ["a,b"]⟩ 5 TxFail.ok).1
        1).map Post.tags = some ["a", "b"] ∧
    (some ["a", "b"] : Option (List String)) ≠ some ["a,b"] := by
  constructor
  · rfl
  · decide

/-- C2 (amended): for every valid create request whose tags are all non-empty
and comma-free (tags containing quote characters included), creating the post
and immediately fetching it by its assigned id returns identical title,
identical content, and the tag sequence exactly as provided, in order. -/
theorem create_then_get_roundtrip (db : DBState) (now : Nat) (req : CreatePostRequest)
    (_ht : req.title ≠ "") (_hc : req.content ≠ "")
    (htags : ∀ t ∈ req.tags, t.toList ≠ [] ∧ ',' ∉ t.toList)
    (hfresh : ∀ p ∈ db.posts, p.id ≠ db.nextPostId) :
    ∃ row : PostRow, (createPostWithTransaction db req now TxFail.ok).2 = some row ∧
      getPostByID (createPostWithTransaction db req now TxFail.ok).1 row.id =
        some { id := row.id, title := req.title, content := req.content
               tags := req.tags, createdAt := now, relatedPosts := [] } := by
  refine ⟨_, rfl, ?_⟩
  unfold getPostByID
  have hfind :
      ((createPostWithTransaction db req now TxFail.ok).1.posts.find?
        (fun p => p.id = db.nextPostId)) =
      some { id := db.nextPostId, title := req.title, content := req.content
             tags := req.tags, createdAt := now } := by
    show ((db.posts ++ [_]).find? _) = _
    rw [List.find?_append]
    have hnone : db.posts.find? (fun p => p.id = db.nextPostId) = none := by
      rw [List.find?_eq_none]
      intro p hp
      simpa using hfresh p hp
    simp [hnone]
  show ((createPostWithTransaction db req now TxFail.ok).1.posts.find?
      (fun p => p.id = db.nextPostId)).map _ = _
  rw [hfind]
  simp only [Option.map_some']
  congr 1
  simp [parseTags_joinTags req.tags htags]

/-- C2 witness: the round-trip theorem applied to a concrete request with an
ordinary tag and a tag containing a quote character. -/
theorem create_then_get_roundtrip_witness :
    ∃ row : PostRow,
      (createPostWithTransaction ⟨[], [], 1, 1⟩ ⟨"t", "c", ["go", "a\"b"]⟩ 5 TxFail.ok).2 =
        some row ∧
      getPostByID (createPostWithTransaction ⟨[], [], 1, 1⟩ ⟨"t", "c", ["go", "a\"b"]⟩ 5
          TxFail.ok).1 row.id =
        some { id := row.id, title := "t", content := "c", tags := ["go", "a\"b"]
               createdAt := 5, relatedPosts := [] } :=
  create_then_get_roundtrip ⟨[], [], 1, 1⟩ 5 ⟨"t", "c", ["go", "a\"b"]⟩
    (by decide) (by decide) (by decide) (by intro p hp; simp at hp)

/-- Entry of a tag-search response (`{id, title, tags}` map built by
`SearchPostsByTag` / `searchByTag`). -/
structure TagSearchEntry where
  id : Nat
  title : String
  tags : List String
deriving DecidableEq

/-- Document stored in the `posts` elasticsearch index
(fields `id, title, content, tags, created_at`). -/
structure EsDoc where
  id : Nat
  title : String
  content : String
  tags : List String
  createdAt : Nat
deriving DecidableEq

/-- Full-text hit: the document source with the engine relevance score
attached (`source["score"] = score`).  Scores are opaque tokens here; the code
never computes with them, so their numeric type is modelled as `Int`. -/
structure ScoredDoc where
  doc : EsDoc
  score : Int
deriving DecidableEq

/-- HTTP response body: a post, a JSON message map, an `http.Error` text, or
one of the two search responses (each carrying its `posts` array and
`total`). -/
inductive Body where
  | postB : Post → Body
  | msgB : String → Body
  | errB : String → Body
  | tagSearchB : List TagSearchEntry → Nat → Body
  | textSearchB : List ScoredDoc → Nat → Body
deriving DecidableEq

/-- HTTP response: status code plus body. -/
structure HttpResponse where
  status : Nat
  body : Body
deriving DecidableEq

/-- Background task launched by a write handler: indexing a concrete post
(`go indexPostToElasticsearch(post)` / `go h.search.IndexPost(post)`) or
re-fetching a post by id and indexing it (the update goroutine of
`PostHandler.UpdatePost`). -/
inductive IndexTask where
  | indexPost : Post → IndexTask
  | reindexById : Nat → IndexTask
deriving DecidableEq

/-- Cache contents: one entry per post id, holding the serialized post. -/
abbrev CacheState := List (Nat × Post)

/-- Result of a write handler: the store, the cache, the HTTP response, and
the background indexing tasks the handler spawned. -/
structure WriteResult where
  db : DBState
  cache : CacheState
  response : HttpResponse
  tasks : List IndexTask
deriving DecidableEq

/-- View of a freshly selected `posts` row as an API post (no related-posts
projection is stored in the row). -/
def rowToPost (row : PostRow) : Post :=
  { id := row.id, title := row.title, content := row.content
    tags := row.tags, createdAt := row.createdAt, relatedPosts := [] }

/-- `PostHandler.CreatePost` (post_repository.go 185-216): validate, run the
create transaction, answer 500 on failure, else spawn the async index task and
answer `201 Created` with the created post (the `RETURNING` row).  The handler
never touches the cache; the cache state is threaded through unchanged. -/
def createPostHandler (db : DBState) (cache : CacheState) (now : Nat)
    (req : CreatePostRequest) (fail : TxFail) : WriteResult :=
  if req.title = "" ∨ req.content = "" then
    ⟨db, cache, ⟨400, Body.errB "Title and content are required"⟩, []⟩
  else
    match createPostWithTransaction db req now fail with
    | (db', none) => ⟨db', cache, ⟨500, Body.errB "Failed to create post"⟩, []⟩
    | (db', some row) =>
        ⟨db', cache, ⟨201, Body.postB (rowToPost row)⟩, [IndexTask.indexPost (rowToPost row)]⟩

/-- Monolithic `createPost` (main.go 194-252): validate, run the same inlined
transaction, spawn the index goroutine, then encode the post without ever
calling `WriteHeader(http.StatusCreated)` - net/http therefore sends the
default status `200 OK`.  The cache is never referenced. -/
def createPostMain (db : DBState) (cache : CacheState) (now : Nat)
    (req : CreatePostRequest) (fail : TxFail) : WriteResult :=
  if req.title = "" ∨ req.content = "" then
    ⟨db, cache, ⟨400, Body.errB "Title and content are required"⟩, []⟩
  else
    match createPostWithTransaction db req now fail with
    | (db', none) => ⟨db', cache, ⟨500, Body.errB "internal error"⟩, []⟩
    | (db', some row) =>
        ⟨db', cache, ⟨200, Body.postB (rowToPost row)⟩, [IndexTask.indexPost (rowToPost row)]⟩

/-- SQL semantics of `UPDATE posts SET title=$1, content=$2, tags=$3 WHERE
id=$4`: replace the three mutable fields of every matching row and report the
number of affected rows. -/
def sqlUpdatePosts (db : DBState) (id : Nat) (req : UpdatePostRequest) : DBState × Nat :=
  ({ db with posts := db.posts.map (fun p =>
      if p.id = id then { p with title := req.title, content := req.content, tags := req.tags }
      else p) },
   (db.posts.filter (fun p => p.id = id)).length)

/-- `PostRepository.UpdatePost` (post_repository.go 87-106): execute the
update, then check `RowsAffected`; zero affected rows yields the error
`"post not found"`.  `execFails` models a store/transport failure of the
`Exec` call itself (no rows changed in that case). -/
def updatePost (db : DBState) (id : Nat) (req : UpdatePostRequest) (execFails : Bool) :
    DBState × Except String Unit :=
  if execFails then (db, Except.error "failed to update post")
  else
    let r := sqlUpdatePosts db id req
    if r.2 = 0 then (r.1, Except.error "post not found") else (r.1, Except.ok ())

/-- `Cache.Invalidate` as called by `PostHandler.UpdatePost`
(post_repository.go 301-304): delete the entry; a failing delete leaves the
cache untouched and is only logged. -/
def cacheInvalidate (cache : CacheState) (invFails : Bool) (id : Nat) : CacheState :=
  if invFails then cache else cache.filter (fun e => e.1 ≠ id)

/-- `PostHandler.UpdatePost` (post_repository.go 269-323): validate, update via
the repository, map the `"post not found"` error string to 404 and other
errors to 500; on success invalidate the cache (failure logged, not fatal) and
spawn the reindex goroutine, answering `200` with a success message. -/
def updatePostHandler (db : DBState) (cache : CacheState) (id : Nat)
    (req : UpdatePostRequest) (execFails invFails : Bool) : WriteResult :=
  if req.title = "" ∨ req.content = "" then
    ⟨db, cache, ⟨400, Body.errB "Title and content are required"⟩, []⟩
  else
    match updatePost db id req execFails with
    | (db', Except.error e) =>
        if e = "post not found" then ⟨db', cache, ⟨404, Body.errB "Post not found"⟩, []⟩
        else ⟨db', cache, ⟨500, Body.errB "Failed to update post"⟩, []⟩
    | (db', Except.ok _) =>
        ⟨db', cacheInvalidate cache invFails id,
          ⟨200, Body.msgB "Post updated successfully"⟩, [IndexTask.reindexById id]⟩

/-- Monolithic `updatePost` (main.go 318-353): decode the body, then - with no
input validation and no `RowsAffected` check - execute the update, delete the
cache key, spawn the index goroutine with the request data, and answer `200`
with a success message regardless of whether any row matched. -/
def updatePostMain (db : DBState) (cache : CacheState) (id : Nat)
    (req : UpdatePostRequest) (execFails : Bool) : WriteResult :=
  if execFails then ⟨db, cache, ⟨500, Body.errB "internal error"⟩, []⟩
  else
    let r := sqlUpdatePosts db id req
    ⟨r.1, cache.filter (fun e => e.1 ≠ id),
      ⟨200, Body.msgB "Post updated successfully"⟩,
      [IndexTask.indexPost
        { id := id, title := req.title, content := req.content
          tags := req.tags, createdAt := 0, relatedPosts := [] }]⟩

/-- C3 counterexample: with an empty store (no row matches id 1), the
monolithic PUT handler reports success instead of failing with 404. -/
theorem update_missing_main_cex :
    (updatePostMain ⟨[], [], 1, 1⟩ [] 1 ⟨"t", "c", []⟩ false).response =
      ⟨200, Body.msgB "Post updated successfully"⟩ ∧
    (200 : Nat) ≠ 404 := by
  constructor
  · rfl
  · decide

/-- C3 (amended): the layered update path behaves as claimed - for every id
with no matching row it fails with 404 and persists nothing, and it reports
success (200) only when a row with that id matched and was replaced; the
monolithic `main.go` update path, by contrast, reports success regardless of
whether any row matched. -/
theorem update_not_found_layered :
    (∀ (db : DBState) (cache : CacheState) (id : Nat) (req : UpdatePostRequest)
        (invFails : Bool), req.title ≠ "" → req.content ≠ "" →
        (∀ p ∈ db.posts, p.id ≠ id) →
        updatePostHandler db cache id req false invFails =
          ⟨db, cache, ⟨404, Body.errB "Post not found"⟩, []⟩) ∧
    (∀ (db : DBState) (cache : CacheState) (id : Nat) (req : UpdatePostRequest)
        (execFails invFails : Bool),
        (updatePostHandler db cache id req execFails invFails).response.status = 200 →
        (∃ p ∈ db.posts, p.id = id) ∧
        (updatePostHandler db cache id req execFails invFails).db.posts =
          db.posts.map (fun p =>
            if p.id = id then
              { p with title := req.title, content := req.content, tags := req.tags }
            else p)) := by
  constructor
  · intro db cache id req invFails ht hc hmiss
    have hval : ¬(req.title = "" ∨ req.content = "") := by
      rintro (h | h)
      exacts [ht h, hc h]
    have hfilter : db.posts.filter (fun p => p.id = id) = [] := by
      rw [List.filter_eq_nil_iff]
      intro p hp
      simpa using hmiss p hp
    have hmap : db.posts.map (fun p =>
        if p.id = id then { p with title := req.title, content := req.content, tags := req.tags }
        else p) = db.posts := by
      conv_rhs => rw [← List.map_id db.posts]
      apply List.map_congr_left
      intro p hp
      simp [hmiss p hp]
    have hup : updatePost db id req false = (db, Except.error "post not found") := by
      simp [updatePost, sqlUpdatePosts, hfilter, hmap]
    simp [updatePostHandler, hval, hup]
  · intro db cache id req execFails invFails h200
    by_cases hval : req.title = "" ∨ req.content = ""
    · simp [updatePostHandler, hval] at h200
    · cases execFails with
      | false =>
          by_cases hn : (db.posts.filter (fun p => p.id = id)).length = 0
          · have hup : updatePost db id req false =
                ((sqlUpdatePosts db id req).1, Except.error "post not found") := by
              simp [updatePost, sqlUpdatePosts, hn]
            simp [updatePostHandler, hval, hup] at h200
          · have hup : updatePost db id req false =
                ((sqlUpdatePosts db id req).1, Except.ok ()) := by
              simp only [updatePost, Bool.false_eq_true, if_false]
              rw [if_neg]
              simpa [sqlUpdatePosts] using hn
            refine ⟨?_, ?_⟩
            · have hne : db.posts.filter (fun p => p.id = id) ≠ [] := by
                intro hnil
                exact hn (by rw [hnil]; rfl)
              rcases List.exists_mem_of_ne_nil _ hne with ⟨p, hp⟩
              rcases List.mem_filter.mp hp with ⟨hpmem, hpid⟩
              exact ⟨p, hpmem, by simpa using hpid⟩
            · simp [updatePostHandler, hval, hup, sqlUpdatePosts]
      | true =>
          have hstr : ("failed to update post" = "post not found") = False := by
            simp
          have hup : updatePost db id req true = (db, Except.error "failed to update post") := by
            simp [updatePost]
          simp [updatePostHandler, hval, hup, hstr] at h200

/-- C3 witness: the layered 404 behaviour at a concrete store with no row for
id 7. -/
theorem update_not_found_layered_witness :
    updatePostHandler ⟨[], [], 1, 1⟩ [] 7 ⟨"t", "c", []⟩ false false =
      ⟨⟨[], [], 1, 1⟩, [], ⟨404, Body.errB "Post not found"⟩, []⟩ :=
  update_not_found_layered.1 ⟨[], [], 1, 1⟩ [] 7 ⟨"t", "c", []⟩ false
    (by decide) (by decide) (by intro p hp; simp at hp)

/-- C4 counterexample: the monolithic PUT handler accepts a request with empty
title and content - it answers 200, not 400, and it does modify the store
(the row's title and content become empty). -/
theorem update_main_skips_validation_cex :
    (updatePostMain ⟨[⟨1, "old", "oldc", ["x"], 3⟩], [], 2, 1⟩ [] 1
        ⟨"", "", []⟩ false).response.status = 200 ∧
    (updatePostMain ⟨[⟨1, "old", "oldc", ["x"], 3⟩], [], 2, 1⟩ [] 1
        ⟨"", "", []⟩ false).db.posts = [⟨1, "", "", [], 3⟩] := by
  constructor
  · rfl
  · rfl

/-- C4 (amended): on both create paths and on the layered update path, a
request with empty title or empty content fails with 400 before any side
effect - the store and the cache are unchanged and no indexing task is
launched.  The monolithic update path performs no such validation (see the
counterexample). -/
theorem validation_before_side_effects :
    (∀ (db : DBState) (cache : CacheState) (now : Nat) (req : CreatePostRequest)
        (fail : TxFail), req.title = "" ∨ req.content = "" →
        createPostHandler db cache now req fail =
          ⟨db, cache, ⟨400, Body.errB "Title and content are required"⟩, []⟩) ∧
    (∀ (db : DBState) (cache : CacheState) (now : Nat) (req : CreatePostRequest)
        (fail : TxFail), req.title = "" ∨ req.content = "" →
        createPostMain db cache now req fail =
          ⟨db, cache, ⟨400, Body.errB "Title and content are required"⟩, []⟩) ∧
    (∀ (db : DBState) (cache : CacheState) (id : Nat) (req : UpdatePostRequest)
        (execFails invFails : Bool), req.title = "" ∨ req.content = "" →
        updatePostHandler db cache id req execFails invFails =
          ⟨db, cache, ⟨400, Body.errB "Title and content are required"⟩, []⟩) := by
  refine ⟨?_, ?_, ?_⟩
  · intro db cache now req fail hv
    simp [createPostHandler, hv]
  · intro db cache now req fail hv
    simp [createPostMain, hv]
  · intro db cache id req execFails invFails hv
    simp [updatePostHandler, hv]

/-- C4 witness: the validation theorem applied to a concrete empty-title
create request. -/
theorem validation_before_side_effects_witness :
    createPostHandler ⟨[], [], 1, 1⟩ [] 9 ⟨"", "c", []⟩ TxFail.ok =
      ⟨⟨[], [], 1, 1⟩, [], ⟨400, Body.errB "Title and content are required"⟩, []⟩ :=
  validation_before_side_effects.1 ⟨[], [], 1, 1⟩ [] 9 ⟨"", "c", []⟩ TxFail.ok (Or.inl rfl)

/-- C5 counterexample: a successful monolithic create answers with status 200,
not 201 - `createPost` in main.go never calls `WriteHeader(201)`. -/
theorem create_main_status_cex :
    (createPostMain ⟨[], [], 1, 1⟩ [] 9 ⟨"t", "c", ["go"]⟩ TxFail.ok).response.status = 200 ∧
    (200 : Nat) ≠ 201 := by
  constructor
  · rfl
  · decide

/-- C5 (amended): every successful create through the layered handler
(`PostHandler.CreatePost`) answers status 201 with the created post as body,
including the store-assigned id and created-at timestamp; the monolithic
`createPost` returns the same body but with the default status 200. -/
theorem create_layered_responds_201 (db : DBState) (cache : CacheState) (now : Nat)
    (req : CreatePostRequest) (ht : req.title ≠ "") (hc : req.content ≠ "") :
    (createPostHandler db cache now req TxFail.ok).response =
      ⟨201, Body.postB { id := db.nextPostId, title := req.title, content := req.content
                         tags := req.tags, createdAt := now, relatedPosts := [] }⟩ ∧
    (createPostHandler db cache now req TxFail.ok).db.posts =
      db.posts ++ [{ id := db.nextPostId, title := req.title, content := req.content
                     tags := req.tags, createdAt := now }] := by
  have hval : ¬(req.title = "" ∨ req.content = "") := by
    rintro (h | h)
    exacts [ht h, hc h]
  constructor <;> simp [createPostHandler, createPostWithTransaction, rowToPost, hval]

/-- C5 witness: the 201 theorem at a concrete request. -/
theorem create_layered_responds_201_witness :
    (createPostHandler ⟨[], [], 1, 1⟩ [] 9 ⟨"t", "c", ["go"]⟩ TxFail.ok).response =
      ⟨201, Body.postB ⟨1, "t", "c", ["go"], 9, []⟩⟩ :=
  (create_layered_responds_201 ⟨[], [], 1, 1⟩ [] 9 ⟨"t", "c", ["go"]⟩
    (by decide) (by decide)).1

/-- Modelled from the spec: the Elasticsearch engine itself is not part of
this repository, only the query built by `GetRelatedPosts` (elastic_search.go
157-242 / main.go getRelatedPosts 505-585) is.  Per spec section 4.3, the
constructed bool query - `should` term clauses for each tag on the
exact-match `tags` keyword field with `minimum_should_match: 1`, a
`must_not` term clause on `id`, and `size: 5` - returns up to 5 documents
matching at least one of the given tags, excluding the given id. -/
def runRelatedQuery (index : List EsDoc) (excludeId : Nat) (tags : List String) :
    List EsDoc :=
  (index.filter (fun d =>
    decide (d.id ≠ excludeId) && tags.any (fun t => decide (t ∈ d.tags)))).take 5

/-- `ElasticSearch.GetRelatedPosts` (elastic_search.go 157-242) and the
identical monolithic `getRelatedPosts` (main.go 505-585): with an empty tag
list, return immediately with no query issued; otherwise issue the related
query (`esFail` models a transport/engine failure, degraded to an empty
result) and map each hit source to a `Related` summary.  The second component
records whether a search query was issued. -/
def getRelatedPosts (index : List EsDoc) (esFail : Bool) (currentPostID : Nat)
    (tags : List String) : List Related × Bool :=
  if tags = [] then ([], false)
  else if esFail then ([], true)
  else ((runRelatedQuery index currentPostID tags).map
          (fun d => { id := d.id, title := d.title, tags := d.tags }), true)

/-- C8: for every index state, post id and tag list, the related-posts lookup
returns at most 5 results, never returns a result whose identifier equals the
excluded id, every result shares at least one tag with the given tags, and an
empty tag list yields an empty result with no query issued at all. -/
theorem related_posts_contract (index : List EsDoc) (esFail : Bool) (id : Nat)
    (tags : List String) :
    (getRelatedPosts index esFail id tags).1.length ≤ 5 ∧
    (∀ r ∈ (getRelatedPosts index esFail id tags).1, r.id ≠ id ∧ ∃ t ∈ tags, t ∈ r.tags) ∧
    (tags = [] → (getRelatedPosts index esFail id tags).1 = [] ∧
      (getRelatedPosts index esFail id tags).2 = false) := by
  by_cases htags : tags = []
  · simp [getRelatedPosts, htags]
  · by_cases hfail : esFail
    · simp [getRelatedPosts, htags, hfail]
    · refine ⟨?_, ?_, fun h => absurd h htags⟩
      · have hres : (getRelatedPosts index esFail id tags).1 =
            (runRelatedQuery index id tags).map (fun d => ⟨d.id, d.title, d.tags⟩) := by
          simp [getRelatedPosts, htags, hfail]
        rw [hres, List.length_map]
        simp only [runRelatedQuery]
        rw [List.length_take]
        exact min_le_left _ _
      · intro r hr
        have hres : (getRelatedPosts index esFail id tags).1 =
            (runRelatedQuery index id tags).map (fun d => ⟨d.id, d.title, d.tags⟩) := by
          simp [getRelatedPosts, htags, hfail]
        rw [hres] at hr
        rcases List.mem_map.mp hr with ⟨d, hd, rfl⟩
        have hdmem := List.mem_filter.mp (List.take_subset _ _ hd)
        rcases hdmem with ⟨-, hcond⟩
        rcases Bool.and_eq_true_iff.mp hcond with ⟨hid, hany⟩
        refine ⟨of_decide_eq_true hid, ?_⟩
        rcases List.any_eq_true.mp hany with ⟨t, htmem, htag⟩
        exact ⟨t, htmem, of_decide_eq_true htag⟩

/-- C8 witness: the contract applied at a concrete index and tag list.  The
index holds three docs sharing the tag; the query excludes doc 1 and returns
the other two, each sharing the tag `"go"`. -/
theorem related_posts_contract_witness :
    (getRelatedPosts [⟨1, "A", "ca", ["go"], 0⟩, ⟨2, "B", "cb", ["go"], 0⟩,
        ⟨3, "C", "cc", ["go", "db"], 0⟩] false 1 ["go"]).1.length ≤ 5 ∧
    ((⟨2, "B", ["go"]⟩ : Related) ∈ (getRelatedPosts [⟨1, "A", "ca", ["go"], 0⟩,
        ⟨2, "B", "cb", ["go"], 0⟩, ⟨3, "C", "cc", ["go", "db"], 0⟩] false 1 ["go"]).1 →
      (⟨2, "B", ["go"]⟩ : Related).id ≠ 1 ∧ ∃ t ∈ ["go"], t ∈ ["go"]) := by
  have h := related_posts_contract [⟨1, "A", "ca", ["go"], 0⟩, ⟨2, "B", "cb", ["go"], 0⟩,
    ⟨3, "C", "cc", ["go", "db"], 0⟩] false 1 ["go"]
  exact ⟨h.1, fun hm => h.2.1 ⟨2, "B", ["go"]⟩ hm⟩

/-- Outcome of `RedisCache.GetPost` (redis_cache.go 26-43) at a call site: a
deserialized post on a hit, a clean miss (`redis.Nil`), or a reported cache
failure (transport error or undecodable payload). -/
inductive CacheGetResult where
  | hit : Post → CacheGetResult
  | miss : CacheGetResult
  | failure : CacheGetResult
deriving DecidableEq

/-- `RedisCache.GetPost`: a transport failure is reported as an error,
distinct from the clean miss; otherwise the entry for the key `post:id` is
returned if present. -/
def cacheGetPost (cache : CacheState) (getFails : Bool) (id : Nat) : CacheGetResult :=
  if getFails then CacheGetResult.failure
  else
    match cache.lookup id with
    | some p => CacheGetResult.hit p
    | none => CacheGetResult.miss

/-- `RedisCache.SetPost` (redis_cache.go 46-59): replace-or-create the entry
for the post's id; a failing set leaves the cache untouched (the caller only
logs the error). -/
def cacheSetPost (cache : CacheState) (setFails : Bool) (p : Post) : CacheState :=
  if setFails then cache else (p.id, p) :: cache.filter (fun e => e.1 ≠ p.id)

/-- Result of the GET /posts/:id handler: the cache state after the request,
the HTTP response, and whether a cache error was logged. -/
structure ReadResult where
  cache : CacheState
  response : HttpResponse
  loggedCacheError : Bool
deriving DecidableEq

/-- Store branch of `PostHandler.GetPost` (post_repository.go 243-265) and of
`getPost` (main.go 280-314): on a cache miss read the row from the store (404
when absent); cache the fetched post - before the related-posts projection is
attached - with a 5 minute TTL, a set failure being only logged; then augment
with the related posts and respond 200. -/
def getPostStorePath (db : DBState) (index : List EsDoc) (cache : CacheState)
    (setFails esFail : Bool) (id : Nat) : CacheState × HttpResponse :=
  match getPostByID db id with
  | none => (cache, ⟨404, Body.errB "Post not found"⟩)
  | some post =>
      (cacheSetPost cache setFails post,
       ⟨200, Body.postB
         { post with relatedPosts := (getRelatedPosts index esFail post.id post.tags).1 }⟩)

/-- `PostHandler.GetPost` (post_repository.go 219-266) and the structurally
identical monolithic `getPost` (main.go 255-315): consult the cache first; a
cache hit is augmented with freshly computed related posts and answered
directly; a clean miss and a cache failure both fall through to the store
path, the failure being logged distinctly. -/
def getPostHandler (db : DBState) (index : List EsDoc) (cache : CacheState)
    (getFails setFails esFail : Bool) (id : Nat) : ReadResult :=
  match cacheGetPost cache getFails id with
  | CacheGetResult.hit cached =>
      ⟨cache,
       ⟨200, Body.postB
         { cached with
           relatedPosts := (getRelatedPosts index esFail cached.id cached.tags).1 }⟩,
       getFails⟩
  | _ =>
      ⟨(getPostStorePath db index cache setFails esFail id).1,
       (getPostStorePath db index cache setFails esFail id).2,
       getFails⟩

/-- C6: no cache operation failure ever fails the surrounding request.
A failing cache read falls through to the store path exactly as a miss
would, but is logged distinctly (conjuncts 1 and 2); a clean read never logs
a cache error (conjunct 3); a failing cache set after the store read changes
neither the response nor the logged flags (conjunct 4); a failing cache
invalidation after an update changes neither the response nor the store
(conjunct 5). -/
theorem cache_failures_never_fail_request :
    (∀ (db : DBState) (index : List EsDoc) (cache : CacheState) (setFails esFail : Bool)
        (id : Nat),
        getPostHandler db index cache true setFails esFail id =
          ⟨(getPostStorePath db index cache setFails esFail id).1,
           (getPostStorePath db index cache setFails esFail id).2, true⟩) ∧
    (∀ (db : DBState) (index : List EsDoc) (cache : CacheState) (setFails esFail : Bool)
        (id : Nat), cache.lookup id = none →
        (getPostHandler db index cache false setFails esFail id).response =
          (getPostHandler db index cache true setFails esFail id).response) ∧
    (∀ (db : DBState) (index : List EsDoc) (cache : CacheState) (setFails esFail : Bool)
        (id : Nat),
        (getPostHandler db index cache false setFails esFail id).loggedCacheError = false) ∧
    (∀ (db : DBState) (index : List EsDoc) (cache : CacheState) (getFails esFail : Bool)
        (id : Nat),
        (getPostHandler db index cache getFails true esFail id).response =
          (getPostHandler db index cache getFails false esFail id).response) ∧
    (∀ (db : DBState) (cache : CacheState) (id : Nat) (req : UpdatePostRequest)
        (execFails : Bool),
        (updatePostHandler db cache id req execFails true).response =
          (updatePostHandler db cache id req execFails false).response ∧
        (updatePostHandler db cache id req execFails true).db =
          (updatePostHandler db cache id req execFails false).db) := by
  refine ⟨?_, ?_, ?_, ?_, ?_⟩
  · intro db index cache setFails esFail id
    rfl
  · intro db index cache setFails esFail id hmiss
    simp [getPostHandler, cacheGetPost, hmiss]
  · intro db index cache setFails esFail id
    simp only [getPostHandler, cacheGetPost, if_neg (by simp : ¬(false = true))]
    cases cache.lookup id <;> rfl
  · intro db index cache getFails esFail id
    cases hcg : cacheGetPost cache getFails id <;>
      simp [getPostHandler, hcg, getPostStorePath] <;>
      cases getPostByID db id <;> rfl
  · intro db cache id req execFails
    by_cases hval : req.title = "" ∨ req.content = ""
    · simp [updatePostHandler, hval]
    · rcases hup : updatePost db id req execFails with ⟨db', r⟩
      cases r with
      | error e =>
          by_cases he : e = "post not found" <;>
            simp [updatePostHandler, hval, hup, he]
      | ok u => simp [updatePostHandler, hval, hup]

/-- C6 witness: on a concrete empty cache, the read with a failing cache and
the read with a cleanly missing entry produce the same response. -/
theorem cache_failures_never_fail_request_witness :
    (getPostHandler ⟨[], [], 1, 1⟩ [] [] false false false 1).response =
      (getPostHandler ⟨[], [], 1, 1⟩ [] [] true false false 1).response :=
  cache_failures_never_fail_request.2.1 ⟨[], [], 1, 1⟩ [] [] false false 1 rfl

theorem getPostByID_relatedPosts (db : DBState) (id : Nat) (p : Post)
    (h : getPostByID db id = some p) : p.relatedPosts = [] := by
  unfold getPostByID at h
  rcases hf : db.posts.find? (fun q => q.id = id) with _ | row
  · rw [hf] at h
    simp at h
  · rw [hf] at h
    simp only [Option.map_some'] at h
    rcases Option.some.inj h with rfl
    rfl

/-- C9: related-post summaries are never cached, and every GET response
recomputes them at read time.  First conjunct: every entry of the cache after
a GET request either was already cached before the request or stores a post
with an empty related-posts projection (the store row is cached before
augmentation).  Second conjunct: whenever the GET response carries a post, its
related posts are exactly the ones freshly computed from the search index for
that post's id and tags - on cache hits as well as on cache misses. -/
theorem related_never_cached :
    (∀ (db : DBState) (index : List EsDoc) (cache : CacheState)
        (getFails setFails esFail : Bool) (id : Nat),
        ∀ e ∈ (getPostHandler db index cache getFails setFails esFail id).cache,
          e ∈ cache ∨ e.2.relatedPosts = []) ∧
    (∀ (db : DBState) (index : List EsDoc) (cache : CacheState)
        (getFails setFails esFail : Bool) (id : Nat) (q : Post),
        (getPostHandler db index cache getFails setFails esFail id).response.body =
          Body.postB q →
        q.relatedPosts = (getRelatedPosts index esFail q.id q.tags).1) := by
  constructor
  · intro db index cache gF sF eF id e he
    cases hcg : cacheGetPost cache gF id with
    | hit cached =>
        simp only [getPostHandler, hcg] at he
        exact Or.inl he
    | miss =>
        simp only [getPostHandler, hcg, getPostStorePath] at he
        rcases hdb : getPostByID db id with _ | post
        · rw [hdb] at he
          exact Or.inl he
        · rw [hdb] at he
          simp only [cacheSetPost] at he
          cases sF with
          | true => exact Or.inl (by simpa using he)
          | false =>
              have he' : e = (post.id, post) ∨ (e ∈ cache ∧ ¬e.1 = post.id) := by
                simpa using he
              rcases he' with rfl | ⟨hmem, -⟩
              · exact Or.inr (getPostByID_relatedPosts db id post hdb)
              · exact Or.inl hmem
    | failure =>
        simp only [getPostHandler, hcg, getPostStorePath] at he
        rcases hdb : getPostByID db id with _ | post
        · rw [hdb] at he
          exact Or.inl he
        · rw [hdb] at he
          simp only [cacheSetPost] at he
          cases sF with
          | true => exact Or.inl (by simpa using he)
          | false =>
              have he' : e = (post.id, post) ∨ (e ∈ cache ∧ ¬e.1 = post.id) := by
                simpa using he
              rcases he' with rfl | ⟨hmem, -⟩
              · exact Or.inr (getPostByID_relatedPosts db id post hdb)
              · exact Or.inl hmem
  · intro db index cache gF sF eF id q hq
    cases hcg : cacheGetPost cache gF id with
    | hit cached =>
        simp only [getPostHandler, hcg] at hq
        rcases Body.postB.inj hq.symm with rfl
        rfl
    | miss =>
        simp only [getPostHandler, hcg, getPostStorePath] at hq
        rcases hdb : getPostByID db id with _ | post
        · rw [hdb] at hq
          simp at hq
        · rw [hdb] at hq
          simp only [Body.postB.injEq] at hq
          rw [← hq]
    | failure =>
        simp only [getPostHandler, hcg, getPostStorePath] at hq
        rcases hdb : getPostByID db id with _ | post
        · rw [hdb] at hq
          simp at hq
        · rw [hdb] at hq
          simp only [Body.postB.injEq] at hq
          rw [← hq]

/-- C9 witness: a concrete cache-miss GET.  The response post carries exactly
the related posts freshly computed from the index for its id and tags. -/
theorem related_never_cached_witness :
    ({ id := 1, title := "A", content := "ca", tags := ["go"], createdAt := 0
       relatedPosts := [⟨2, "B", ["go"]⟩] } : Post).relatedPosts =
      (getRelatedPosts [⟨2, "B", "cb", ["go"], 0⟩] false 1 ["go"]).1 :=
  related_never_cached.2 ⟨[⟨1, "A", "ca", ["go"], 0⟩], [], 2, 1⟩
    [⟨2, "B", "cb", ["go"], 0⟩] [] false false false 1
    { id := 1, title := "A", content := "ca", tags := ["go"], createdAt := 0
      relatedPosts := [⟨2, "B", ["go"]⟩] } (by decide)

/-- `strings.Trim` with a cutset: drop cutset characters from both ends of
the string, modelled on its character sequence. -/
def trimChars (cut : List Char) (s : List Char) : List Char :=
  ((s.dropWhile (· ∈ cut)).reverse.dropWhile (· ∈ cut)).reverse

/-- Tag cleanup of `PostRepository.SearchPostsByTag` (post_repository.go
129-143): trim the array literal's braces (`strings.Trim(s, "\x7b\x7d")`),
split the remainder on commas, trim quote characters from each part, and keep
the non-empty parts, in order. -/
def cleanTags (s : List Char) : List String :=
  let t := trimChars ['\x7b', '\x7d'] s
  if t = [] then []
  else ((t.splitOn ',').map (fun part => (trimChars ['"'] part).asString)).filter
    (fun tag => tag ≠ "")

/-- `PostRepository.SearchPostsByTag` (post_repository.go 109-153) and the
monolithic `searchByTag` row loop (main.go 363-393): `SELECT id, title, tags
FROM posts WHERE $1 = ANY(tags)` selects exactly the rows whose tag array has
the tag as an element; each selected row is projected to `{id, title, tags}`,
the tags column being received in the store's textual array form - modelled by
the `serialize` oracle, as the wire format is out of scope - and parsed back
for display. -/
def searchPostsByTag (db : DBState) (tag : String)
    (serialize : List String → List Char) : List TagSearchEntry :=
  (db.posts.filter (fun p => tag ∈ p.tags)).map
    (fun p => { id := p.id, title := p.title, tags := cleanTags (serialize p.tags) })

theorem pairwise_id_unique {l : List PostRow}
    (h : l.Pairwise (fun a b => a.id ≠ b.id)) :
    ∀ {a b : PostRow}, a ∈ l → b ∈ l → a.id = b.id → a = b := by
  induction h with
  | nil =>
      intro a b ha _ _
      exact absurd ha (List.not_mem_nil a)
  | cons hx _ ih =>
      intro a b ha hb hid
      rcases List.mem_cons.mp ha with rfl | ha'
      · rcases List.mem_cons.mp hb with rfl | hb'
        · rfl
        · exact absurd hid (hx b hb')
      · rcases List.mem_cons.mp hb with rfl | hb'
        · exact absurd hid.symm (hx a ha')
        · exact ih ha' hb' hid

/-- C7: exact membership semantics of the tag search.  For every store state
with row-unique ids, every tag and every stored post, the tag-search result
contains an entry for that post if and only if the tag is an element of the
post's tag sequence - not a substring or prefix match. -/
theorem find_by_tag_exact_membership (db : DBState) (tag : String)
    (serialize : List String → List Char) (P : PostRow) (hP : P ∈ db.posts)
    (huniq : db.posts.Pairwise (fun a b => a.id ≠ b.id)) :
    (∃ e ∈ searchPostsByTag db tag serialize, e.id = P.id) ↔ tag ∈ P.tags := by
  constructor
  · rintro ⟨e, he, hid⟩
    unfold searchPostsByTag at he
    rcases List.mem_map.mp he with ⟨Q, hQ, rfl⟩
    rcases List.mem_filter.mp hQ with ⟨hQmem, hQtag⟩
    have hQP : Q = P := pairwise_id_unique huniq hQmem hP hid
    rw [← hQP]
    exact of_decide_eq_true hQtag
  · intro htag
    refine ⟨⟨P.id, P.title, cleanTags (serialize P.tags)⟩, ?_, rfl⟩
    unfold searchPostsByTag
    exact List.mem_map.mpr ⟨P, List.mem_filter.mpr ⟨hP, decide_eq_true htag⟩, rfl⟩

/-- C7 witness: on a concrete store, the tag `"golang"` finds the post tagged
`["golang"]`, while the strict substring `"go"` does not - exact membership,
not substring matching. -/
theorem find_by_tag_exact_membership_witness :
    (∃ e ∈ searchPostsByTag ⟨[⟨1, "Go", "c", ["golang"], 0⟩], [], 2, 1⟩ "golang"
        (fun _ => []), e.id = 1) ∧
    ¬(∃ e ∈ searchPostsByTag ⟨[⟨1, "Go", "c", ["golang"], 0⟩], [], 2, 1⟩ "go"
        (fun _ => []), e.id = 1) := by
  constructor
  · exact (find_by_tag_exact_membership ⟨[⟨1, "Go", "c", ["golang"], 0⟩], [], 2, 1⟩
      "golang" (fun _ => []) ⟨1, "Go", "c", ["golang"], 0⟩ (by simp)
      (by simp)).mpr (by decide)
  · intro hex
    have h := (find_by_tag_exact_membership ⟨[⟨1, "Go", "c", ["golang"], 0⟩], [], 2, 1⟩
      "go" (fun _ => []) ⟨1, "Go", "c", ["golang"], 0⟩ (by simp) (by simp)).mp hex
    exact absurd h (by decide)

/-- `PostHandler.SearchByTag` (post_repository.go 326-350): require a
non-empty tag parameter, query the store (`dbFails` models a store failure,
answered with 500), and answer 200 with the result rows and `total` computed
as `len(posts)`. -/
def searchByTagHandler (db : DBState) (tag : String)
    (serialize : List String → List Char) (dbFails : Bool) : HttpResponse :=
  if tag = "" then ⟨400, Body.errB "Tag parameter is required"⟩
  else if dbFails then ⟨500, Body.errB "Failed to search posts"⟩
  else
    ⟨200, Body.tagSearchB (searchPostsByTag db tag serialize)
      (searchPostsByTag db tag serialize).length⟩

/-- Monolithic `searchByTag` (main.go 356-400): identical flow, except each
row's tags column is parsed by a bare comma split.  `total` is again
`len(posts)`. -/
def searchByTagMain (db : DBState) (tag : String)
    (serialize : List String → List Char) (dbFails : Bool) : HttpResponse :=
  if tag = "" then ⟨400, Body.errB "Tag parameter is required"⟩
  else if dbFails then ⟨500, Body.errB "internal error"⟩
  else
    let posts := (db.posts.filter (fun p => tag ∈ p.tags)).map
      (fun p => ({ id := p.id, title := p.title,
                   tags := parseTags (serialize p.tags) } : TagSearchEntry))
    ⟨200, Body.tagSearchB posts posts.length⟩

/-- Engine reply to the full-text query: the hit sources with their scores,
plus the engine's own reported total (`hits.total`, requested via
track_total_hits but never read back by the handlers); `fails` models a
transport or engine error. -/
structure EsSearchReply where
  hits : List ScoredDoc
  reportedTotal : Nat
  fails : Bool

/-- `ElasticSearch.SearchPosts` (elastic_search.go 100-154) and the identical
monolithic query (main.go 410-460): report engine errors, otherwise collect
the hit sources with their scores attached. -/
def searchPostsEs (reply : EsSearchReply) : Except String (List ScoredDoc) :=
  if reply.fails then Except.error "search error" else Except.ok reply.hits

/-- `PostHandler.SearchPosts` (post_repository.go 353-377) and the monolithic
`searchPosts` (main.go 403-467): require a non-empty query parameter, run the
engine search, and answer 200 with the hits and `total` computed as
`len(posts)`. -/
def searchPostsHandler (q : String) (reply : EsSearchReply) : HttpResponse :=
  if q = "" then ⟨400, Body.errB "Query parameter is required"⟩
  else
    match searchPostsEs reply with
    | Except.error _ => ⟨500, Body.errB "Failed to search posts"⟩
    | Except.ok posts => ⟨200, Body.textSearchB posts posts.length⟩

/-- C10: in every search response of either endpoint (layered or monolithic),
the `total` field equals the number of elements of the returned `posts` array;
and the full-text response is independent of the engine's own reported total,
which is never read back. -/
theorem search_total_counts_hits :
    (∀ (db : DBState) (tag : String) (serialize : List String → List Char)
        (dbFails : Bool) (posts : List TagSearchEntry) (total : Nat),
        (searchByTagHandler db tag serialize dbFails).body = Body.tagSearchB posts total →
        total = posts.length) ∧
    (∀ (db : DBState) (tag : String) (serialize : List String → List Char)
        (dbFails : Bool) (posts : List TagSearchEntry) (total : Nat),
        (searchByTagMain db tag serialize dbFails).body = Body.tagSearchB posts total →
        total = posts.length) ∧
    (∀ (q : String) (reply : EsSearchReply) (posts : List ScoredDoc) (total : Nat),
        (searchPostsHandler q reply).body = Body.textSearchB posts total →
        total = posts.length) ∧
    (∀ (q : String) (hits : List ScoredDoc) (rt rt' : Nat) (fails : Bool),
        searchPostsHandler q ⟨hits, rt, fails⟩ = searchPostsHandler q ⟨hits, rt', fails⟩) := by
  refine ⟨?_, ?_, ?_, ?_⟩
  · intro db tag serialize dbFails posts total h
    by_cases htag : tag = ""
    · simp [searchByTagHandler, htag] at h
    · cases dbFails with
      | true => simp [searchByTagHandler, htag] at h
      | false =>
          simp only [searchByTagHandler, if_neg htag, Bool.false_eq_true, if_false,
            Body.tagSearchB.injEq] at h
          rcases h with ⟨rfl, rfl⟩
          rfl
  · intro db tag serialize dbFails posts total h
    by_cases htag : tag = ""
    · simp [searchByTagMain, htag] at h
    · cases dbFails with
      | true => simp [searchByTagMain, htag] at h
      | false =>
          simp only [searchByTagMain, if_neg htag, Bool.false_eq_true, if_false,
            Body.tagSearchB.injEq] at h
          rcases h with ⟨rfl, rfl⟩
          rfl
  · intro q reply posts total h
    by_cases hq : q = ""
    · simp [searchPostsHandler, hq] at h
    · rcases hes : searchPostsEs reply with e | hits
      · simp [searchPostsHandler, hq, hes] at h
      · simp only [searchPostsHandler, if_neg hq, hes, Body.textSearchB.injEq] at h
        rcases h with ⟨rfl, rfl⟩
        rfl
  · intro q hits rt rt' fails
    rfl

/-- C10 witness: a concrete tag search with one matching row answers
`total = 1`, the count of the returned rows. -/
theorem search_total_counts_hits_witness :
    (1 : Nat) = [({ id := 1, title := "Go", tags := [] } : TagSearchEntry)].length :=
  search_total_counts_hits.1 ⟨[⟨1, "Go", "c", ["golang"], 0⟩], [], 2, 1⟩ "golang"
    (fun _ => []) false [⟨1, "Go", []⟩] 1 (by decide)

end Blog
